import Mathlib

set_option maxHeartbeats 1000000

/-!
Verification of the PicoClaw streaming chat orchestrator.

The development shallowly embeds the Go sources of the repository:
- `pkg/providers/ollama/ollama.go` (the native streaming Ollama adapter),
- `pkg/providers/ollama.go` (the non-streaming `OllamaProvider`),
- `cmd/webui` main (the `ProviderWrapper` simulate-streaming adapter, the
  provider registry, and the two transport handlers `handleChat` and
  `handleWebSocket`).

Network effects are made explicit: each embedded function takes the
outcome of its upstream HTTP interaction as an argument (connection
failure, status plus raw body, or a list of decoded stream units), and
returns the value the Go function returns together with the list of
upstream wire requests it issued.  The session store of `pkg/session`
is not part of the sources and is modelled from the specification.
-/

/-- A chat message as used by the orchestrator (`providers.Message` in Go:
role and content; the wire-level timestamp is not consumed by any embedded
function). -/
structure Message where
  role : String
  content : String
deriving DecidableEq

/-- The uniform stream unit (`StreamChunk` in cmd/webui main and
`providers.StreamChunk` as used by pkg/providers/ollama/ollama.go):
a content delta, a done flag, and an optional error.  Go zero values are
written explicitly at every construction site. -/
structure StreamChunk where
  content : String
  done : Bool
  error : Option String
deriving DecidableEq

/-- A chunk is terminal when it carries the done marker or an error. -/
def isTerminal (c : StreamChunk) : Bool := c.done || c.error.isSome

/-- The response of a non-streaming provider call (`providers.LLMResponse`
as consumed in cmd/webui main and built in pkg/providers/ollama.go; the
zero-valued usage counters are not consumed by any embedded function). -/
structure LLMResponse where
  content : String
  finishReason : String
deriving DecidableEq

/-- ProviderWrapper.StreamChat from cmd/webui main: the simulate-streaming
adapter calls the wrapped provider synchronously; on error it sends one
chunk whose Error field is set, otherwise it sends the full response as
one chunk with Content set to the whole text and Done set to true, then
closes the channel. -/
def wrapperStreamChat (chatResult : Except String LLMResponse) : List StreamChunk :=
  match chatResult with
  | Except.error e => [{ content := "", done := false, error := some e }]
  | Except.ok resp => [{ content := resp.content, done := true, error := none }]

/-- One decoded upstream unit of the Ollama streaming response
(`ChatResponse` in pkg/providers/ollama/ollama.go: only the message
content and the done flag are consumed by the stream loop). -/
structure OllamaStreamUnit where
  messageContent : String
  done : Bool
deriving DecidableEq

/-- One step of the upstream body as seen by the JSON decoder inside the
streaming goroutine of pkg/providers/ollama/ollama.go: either a
successfully decoded unit or a non-EOF decoder error; the end of the list
is io.EOF. -/
inductive DecodeEvent where
  | unit (r : OllamaStreamUnit)
  | decodeErr (msg : String)
deriving DecidableEq

/-- The goroutine body of Provider.StreamChat in
pkg/providers/ollama/ollama.go: decode units in a loop; on a decoder
error that is not EOF, send one chunk carrying the decode error and stop;
on EOF stop without sending anything; on a done unit send one chunk with
Done set and stop; otherwise send the unit content as a chunk and
continue. -/
def ollamaStreamLoop : List DecodeEvent → List StreamChunk
  | [] => []
  | DecodeEvent.decodeErr m :: _ =>
      [{ content := "", done := false, error := some ("decode error: " ++ m) }]
  | DecodeEvent.unit r :: rest =>
      if r.done then [{ content := "", done := true, error := none }]
      else { content := r.messageContent, done := false, error := none } :: ollamaStreamLoop rest

/-- Whether the upstream body reaches a done unit or a decoder error
before EOF; exactly in this case the stream loop emits a terminal chunk. -/
def reachesTerminal : List DecodeEvent → Bool
  | [] => false
  | DecodeEvent.decodeErr _ :: _ => true
  | DecodeEvent.unit r :: rest => if r.done then true else reachesTerminal rest

/-- The JSON body of an upstream chat request (`ChatRequest` in
pkg/providers/ollama/ollama.go and `OllamaRequest` in
pkg/providers/ollama.go): model, messages, stream flag.  Issuing one of
these records one upstream HTTP request. -/
structure OllamaWireRequest where
  model : String
  messages : List Message
  stream : Bool
deriving DecidableEq

/-- Decoding the single response body of a non-streaming chat call:
either a decoded unit or a decoder error. -/
inductive BodyDecodeResult where
  | ok (r : OllamaStreamUnit)
  | err (msg : String)
deriving DecidableEq

/-- Outcome of the upstream HTTP exchange of a non-streaming chat call:
either httpClient.Do fails, or a response arrives with a status code, a
raw body (read when the status is not 200) and the decode outcome of the
body (consumed when the status is 200). -/
inductive ChatHTTPResult where
  | doErr (msg : String)
  | resp (status : Nat) (rawBody : String) (decoded : BodyDecodeResult)
deriving DecidableEq

/-- Outcome of the upstream HTTP exchange of a streaming chat call: either
httpClient.Do fails, or a response arrives with a status code, a raw body
(read when the status is not 200) and the decoded unit sequence of the
body (consumed by the stream loop when the status is 200). -/
inductive StreamHTTPResult where
  | doErr (msg : String)
  | resp (status : Nat) (rawBody : String) (events : List DecodeEvent)
deriving DecidableEq

/-- Provider.Chat from pkg/providers/ollama/ollama.go: reject an empty
message list before any upstream request; otherwise issue one request
with the configured model and stream set to false, and map the upstream
outcome exactly as the Go code does. -/
def ollamaChat (configModel : String) (messages : List Message)
    (http : ChatHTTPResult) : Except String LLMResponse × List OllamaWireRequest :=
  if messages.length = 0 then (Except.error "no messages provided", [])
  else
    let wireReq : OllamaWireRequest := { model := configModel, messages := messages, stream := false }
    match http with
    | ChatHTTPResult.doErr m => (Except.error ("failed to send request: " ++ m), [wireReq])
    | ChatHTTPResult.resp status rawBody decoded =>
      if status ≠ 200 then
        (Except.error ("ollama returned status " ++ toString status ++ ": " ++ rawBody), [wireReq])
      else
        match decoded with
        | BodyDecodeResult.err m => (Except.error ("failed to decode response: " ++ m), [wireReq])
        | BodyDecodeResult.ok u => (Except.ok { content := u.messageContent, finishReason := "stop" }, [wireReq])

/-- OllamaProvider.Chat from pkg/providers/ollama.go: same shape as
`ollamaChat`, except that a per-call model is accepted and defaults to the
configured model when empty. -/
def ollamaProviderChat (configModel : String) (messages : List Message) (model : String)
    (http : ChatHTTPResult) : Except String LLMResponse × List OllamaWireRequest :=
  if messages.length = 0 then (Except.error "no messages provided", [])
  else
    let mdl := if model = "" then configModel else model
    let wireReq : OllamaWireRequest := { model := mdl, messages := messages, stream := false }
    match http with
    | ChatHTTPResult.doErr m => (Except.error ("failed to send request: " ++ m), [wireReq])
    | ChatHTTPResult.resp status rawBody decoded =>
      if status ≠ 200 then
        (Except.error ("ollama returned status " ++ toString status ++ ": " ++ rawBody), [wireReq])
      else
        match decoded with
        | BodyDecodeResult.err m => (Except.error ("failed to decode response: " ++ m), [wireReq])
        | BodyDecodeResult.ok u => (Except.ok { content := u.messageContent, finishReason := "stop" }, [wireReq])

/-- Provider.StreamChat from pkg/providers/ollama/ollama.go: reject an
empty message list before any upstream request; otherwise issue one
request with stream set to true; on a Do failure or a non-200 status the
function returns an error and no channel; on success the channel yields
exactly the chunks of the stream loop. -/
def ollamaStreamChat (configModel : String) (messages : List Message)
    (http : StreamHTTPResult) : Except String (List StreamChunk) × List OllamaWireRequest :=
  if messages.length = 0 then (Except.error "no messages provided", [])
  else
    let wireReq : OllamaWireRequest := { model := configModel, messages := messages, stream := true }
    match http with
    | StreamHTTPResult.doErr m => (Except.error ("failed to send request: " ++ m), [wireReq])
    | StreamHTTPResult.resp status rawBody events =>
      if status ≠ 200 then
        (Except.error ("ollama returned status " ++ toString status ++ ": " ++ rawBody), [wireReq])
      else
        (Except.ok (ollamaStreamLoop events), [wireReq])

/-- initializeProviders from cmd/webui main, restricted to its observable
effect on the provider registry: the Ollama provider is probed with a
model listing (`none` models a listing error, in which Go leaves the
models slice nil); the provider is registered under the name ollama only
when the probe returns a non-empty model list. -/
def initProviders (probeModels : Option (List String)) : List String :=
  match probeModels with
  | some models => if models.length > 0 then ["ollama"] else []
  | none => []

/-- getAvailableProviders from cmd/webui main: the keys of the provider
map. -/
def getAvailableProviders (names : List String) : List String := names

/-- getProvider from cmd/webui main: map lookup by name, `none` when the
name is not registered. -/
def getProvider (names : List String) (name : String) : Option String :=
  if names.contains name then some name else none

/-- The fixed priority order of getDefaultProvider from cmd/webui main. -/
def priorityProviders : List String := ["ollama"]

/-- getDefaultProvider from cmd/webui main: the first name of the fixed
priority list that is registered. -/
def getDefaultProviderName (names : List String) : Option String :=
  priorityProviders.find? (fun n => names.contains n)

/-- Modelled from the spec: the Session Store of pkg/session
(`SessionManager`), whose source is not under src.  Per the
specification, it owns per-key ordered message history with an in-memory
representation and a durable on-disk representation: GetHistory returns
the ordered messages for a key (empty for an unseen key), AddMessage
appends one message to the in-memory sequence, Save serializes the
current in-memory sequence for the key to durable storage as one atomic
unit. -/
structure SessionStore where
  mem : String → List Message
  disk : String → List Message

/-- Modelled from the spec: GetHistory of the session store. -/
def SessionStore.getHistory (s : SessionStore) (key : String) : List Message :=
  s.mem key

/-- Modelled from the spec: AddMessage of the session store appends one
message to the in-memory sequence for the key. -/
def SessionStore.addMessage (s : SessionStore) (key role content : String) : SessionStore :=
  { mem := fun k => if k = key then s.mem key ++ [{ role := role, content := content }] else s.mem k,
    disk := s.disk }

/-- Modelled from the spec: Save of the session store persists the
in-memory sequence for the key to durable storage atomically. -/
def SessionStore.save (s : SessionStore) (key : String) : SessionStore :=
  { mem := s.mem,
    disk := fun k => if k = key then s.mem key else s.disk k }

/-- The store with no sessions at all. -/
def emptyStore : SessionStore :=
  { mem := fun _ => [], disk := fun _ => [] }

/-- The decoded client turn request (`ChatRequest` in cmd/webui main):
messages, provider name, model, system prompt, session key. -/
structure ChatRequest where
  messages : List Message
  provider : String
  model : String
  systemPrompt : String
  sessionKey : String

/-- What the event-stream HTTP binding writes for one turn: an HTTP error
response, one data frame carrying a marshalled ChatResponse with content
and done flag, or one data frame carrying an error field. -/
inductive HTTPEvent where
  | httpError (status : Nat) (msg : String)
  | frame (content : String) (done : Bool)
  | errFrame (msg : String)
deriving DecidableEq

/-- What the WebSocket binding writes for one turn: one JSON message with
content and done flag, or one JSON message carrying an error field. -/
inductive WSEvent where
  | json (content : String) (done : Bool)
  | errJson (msg : String)
deriving DecidableEq

/-- The transport-independent reading of one written wire event: a
content/done chunk or an error, stripped of the framing. -/
inductive Fragment where
  | chunk (content : String) (done : Bool)
  | error (msg : String)
deriving DecidableEq

/-- Framing-stripped view of an event of the event-stream binding. -/
def httpEventToFragment : HTTPEvent → Fragment
  | HTTPEvent.httpError _ msg => Fragment.error msg
  | HTTPEvent.frame c d => Fragment.chunk c d
  | HTTPEvent.errFrame m => Fragment.error m

/-- Framing-stripped view of an event of the WebSocket binding. -/
def wsEventToFragment : WSEvent → Fragment
  | WSEvent.json c d => Fragment.chunk c d
  | WSEvent.errJson m => Fragment.error m

/-- The single quote character, used by provider error messages. -/
def squote : String := String.singleton (Char.ofNat 39)

/-- The provider-not-available message built identically by handleChat and
handleWebSocket in cmd/webui main. -/
def providerNotAvailableMsg (name : String) : String :=
  "Provider " ++ squote ++ name ++ squote ++ " not available"

/-- Session-key fallback shared by handleChat and handleWebSocket in
cmd/webui main: an empty client key is replaced by a generated key (the
time-based generation is passed in). -/
def resolveSessionKey (genKey : String) (reqKey : String) : String :=
  if reqKey = "" then genKey else reqKey

/-- Provider-name fallback shared by handleChat and handleWebSocket in
cmd/webui main: an empty requested name is replaced by the default
provider name when one exists, and otherwise stays empty. -/
def resolveProviderName (names : List String) (reqProvider : String) : String :=
  if reqProvider = "" then
    match getDefaultProviderName names with
    | some n => n
    | none => reqProvider
  else reqProvider

/-- The per-message loop shared by handleChat and handleWebSocket in
cmd/webui main: each incoming message is appended to the working history
slice and saved to the session store with AddMessage. -/
def appendIncoming (store : SessionStore) (key : String) (history : List Message) :
    List Message → List Message × SessionStore
  | [] => (history, store)
  | m :: rest =>
      appendIncoming (store.addMessage key m.role m.content) key (history ++ [m]) rest

/-- The chunk-consuming loop of handleChat in cmd/webui main: on an error
chunk write one error frame and break; otherwise write the chunk as a
data frame, add its content to the accumulated response, and on the done
flag append the accumulated response as one assistant message (when it is
non-empty) followed by a Save, then break. -/
def chatLoop (store : SessionStore) (key : String) :
    List StreamChunk → String → SessionStore × List HTTPEvent
  | [], _ => (store, [])
  | c :: rest, full =>
      match c.error with
      | some m => (store, [HTTPEvent.errFrame m])
      | none =>
        let full2 := full ++ c.content
        if c.done then
          (if full2 ≠ "" then (store.addMessage key "assistant" full2).save key else store,
           [HTTPEvent.frame c.content c.done])
        else
          let r := chatLoop store key rest full2
          (r.1, HTTPEvent.frame c.content c.done :: r.2)

/-- The chunk-consuming loop of handleWebSocket in cmd/webui main, written
from its own source lines: identical session effects, WebSocket JSON
messages as wire events (writes are modelled as succeeding). -/
def wsLoop (store : SessionStore) (key : String) :
    List StreamChunk → String → SessionStore × List WSEvent
  | [], _ => (store, [])
  | c :: rest, full =>
      match c.error with
      | some m => (store, [WSEvent.errJson m])
      | none =>
        let full2 := full ++ c.content
        if c.done then
          (if full2 ≠ "" then (store.addMessage key "assistant" full2).save key else store,
           [WSEvent.json c.content c.done])
        else
          let r := wsLoop store key rest full2
          (r.1, WSEvent.json c.content c.done :: r.2)

/-- The tail of handleChat in cmd/webui main, applied to the result of
the StreamChat call: on an error return write one error data frame and
return, otherwise consume the chunk channel with the chunk loop. -/
def chatDispatch (store : SessionStore) (key : String)
    (res : Except String (List StreamChunk)) : SessionStore × List HTTPEvent :=
  match res with
  | Except.error e => (store, [HTTPEvent.errFrame e])
  | Except.ok chunks => chatLoop store key chunks ""

/-- The tail of a handleWebSocket turn in cmd/webui main, applied to the
result of the StreamChat call: on an error return write one error JSON
message and continue, otherwise consume the chunk channel with the chunk
loop. -/
def wsDispatch (store : SessionStore) (key : String)
    (res : Except String (List StreamChunk)) : SessionStore × List WSEvent :=
  match res with
  | Except.error e => (store, [WSEvent.errJson e])
  | Except.ok chunks => wsLoop store key chunks ""

/-- handleChat from cmd/webui main, one POST request: resolve the session
key and the provider name; when the provider is not registered answer
with an HTTP 400 error and return before touching the session; otherwise
load the history, append the incoming messages to the working history and
to the session store, prepend the system prompt to the working history
only, default the model, call StreamChat (passed in as the provider
behaviour), and either write one error frame or run the chunk loop. -/
def handleChat (names : List String) (defaultModel : String → String)
    (beh : String → List Message → String → Except String (List StreamChunk))
    (genKey : String) (store : SessionStore) (req : ChatRequest) :
    SessionStore × List HTTPEvent :=
  let sessionKey := resolveSessionKey genKey req.sessionKey
  let providerName := resolveProviderName names req.provider
  match getProvider names providerName with
  | none => (store, [HTTPEvent.httpError 400 (providerNotAvailableMsg providerName)])
  | some _ =>
    let hs := appendIncoming store sessionKey (store.getHistory sessionKey) req.messages
    let history :=
      if req.systemPrompt ≠ "" then { role := "system", content := req.systemPrompt } :: hs.1
      else hs.1
    let model := if req.model = "" then defaultModel providerName else req.model
    chatDispatch hs.2 sessionKey (beh providerName history model)

/-- One turn of the handleWebSocket read loop from cmd/webui main, written
from its own source lines: same resolution and session effects as
handleChat, except that an unregistered provider is answered with an
error JSON message (and the read loop continues). -/
def handleWebSocketTurn (names : List String) (defaultModel : String → String)
    (beh : String → List Message → String → Except String (List StreamChunk))
    (genKey : String) (store : SessionStore) (req : ChatRequest) :
    SessionStore × List WSEvent :=
  let sessionKey := resolveSessionKey genKey req.sessionKey
  let providerName := resolveProviderName names req.provider
  match getProvider names providerName with
  | none => (store, [WSEvent.errJson (providerNotAvailableMsg providerName)])
  | some _ =>
    let hs := appendIncoming store sessionKey (store.getHistory sessionKey) req.messages
    let history :=
      if req.systemPrompt ≠ "" then { role := "system", content := req.systemPrompt } :: hs.1
      else hs.1
    let model := if req.model = "" then defaultModel providerName else req.model
    wsDispatch hs.2 sessionKey (beh providerName history model)

/-- The accumulated assistant text at the moment the chunk loop reaches a
done chunk, starting from a given accumulator: `none` when the loop stops
for another reason (error chunk or channel close) first. -/
def accumUntilDone : List StreamChunk → String → Option String
  | [], _ => none
  | c :: rest, full =>
      match c.error with
      | some _ => none
      | none =>
        let full2 := full ++ c.content
        if c.done then some full2 else accumUntilDone rest full2

lemma streamLoop_dropLast_nonterminal (events : List DecodeEvent) :
    (ollamaStreamLoop events).dropLast.all (fun c => !(isTerminal c)) = true := by
  induction events with
  | nil => simp [ollamaStreamLoop]
  | cons e rest ih =>
    cases e with
    | decodeErr m => simp [ollamaStreamLoop]
    | unit r =>
      cases hr : r.done with
      | true => simp [ollamaStreamLoop, hr]
      | false =>
        cases hl : ollamaStreamLoop rest with
        | nil => simp [ollamaStreamLoop, hr, hl]
        | cons a l2 =>
          rw [hl] at ih
          simp [ollamaStreamLoop, hr, hl, List.dropLast, List.all_cons, isTerminal]
          simpa [isTerminal] using ih

lemma streamLoop_any_terminal_iff (events : List DecodeEvent) :
    ((ollamaStreamLoop events).any isTerminal = true) ↔ (reachesTerminal events = true) := by
  induction events with
  | nil => simp [ollamaStreamLoop, reachesTerminal]
  | cons e rest ih =>
    cases e with
    | decodeErr m => simp [ollamaStreamLoop, reachesTerminal, isTerminal]
    | unit r =>
      cases hr : r.done with
      | true => simp [ollamaStreamLoop, reachesTerminal, hr, isTerminal]
      | false => simp [ollamaStreamLoop, reachesTerminal, hr, isTerminal, ih]

lemma streamLoop_not_both (events : List DecodeEvent) :
    (ollamaStreamLoop events).all (fun c => !(c.done && c.error.isSome)) = true := by
  induction events with
  | nil => simp [ollamaStreamLoop]
  | cons e rest ih =>
    cases e with
    | decodeErr m => simp [ollamaStreamLoop]
    | unit r =>
      cases hr : r.done with
      | true => simp [ollamaStreamLoop, hr]
      | false =>
        simp [ollamaStreamLoop, hr]
        simpa using ih

/-- C1 (counterexample): with the wrapped provider answering the single
complete response hello, the simulate-streaming wrapper delivers exactly
one chunk, and that single chunk carries both the entire text and the
done marker; there is no separate terminal done fragment following a
content fragment, refuting the claim that the two are never combined. -/
theorem spec_C1_counterexample :
    wrapperStreamChat (Except.ok { content := "hello", finishReason := "stop" }) =
      [{ content := "hello", done := true, error := none }] ∧
    (wrapperStreamChat (Except.ok { content := "hello", finishReason := "stop" })).length = 1 := by
  constructor
  · rfl
  · rfl

/-- C1 (amended): for every turn served through the simulate-streaming
wrapper, the caller receives exactly one chunk; on success it carries the
entire response text together with the done marker in that same single
chunk, and on a provider error it is a single error chunk. -/
theorem spec_C1_amended :
    (∀ resp : LLMResponse,
        wrapperStreamChat (Except.ok resp) =
          [{ content := resp.content, done := true, error := none }]) ∧
    (∀ e : String,
        wrapperStreamChat (Except.error e) =
          [{ content := "", done := false, error := some e }]) := by
  constructor
  · intro resp; rfl
  · intro e; rfl

/-- C2 (counterexample): when the upstream body ends (EOF) after one
non-done unit and before any done marker, the Ollama streaming adapter
emits one content fragment and then closes the stream with no terminal
fragment at all, refuting the claim that every stream contains exactly
one terminal fragment. -/
theorem spec_C2_counterexample :
    ollamaStreamLoop [DecodeEvent.unit { messageContent := "a", done := false }] =
      [{ content := "a", done := false, error := none }] ∧
    (ollamaStreamLoop [DecodeEvent.unit { messageContent := "a", done := false }]).any
        isTerminal = false := by
  constructor
  · rfl
  · rfl

/-- C2 (amended): for every stream produced by the Ollama streaming
adapter, every fragment before the last one is a non-terminal content
fragment (so at most one terminal fragment is emitted, it can only be the
last element, and no content fragment follows it); the stream contains a
terminal fragment exactly when the upstream body reaches a done unit or a
decoder error before EOF, so a body that ends at EOF before a done marker
closes the stream with no terminal fragment; and no fragment ever carries
the done marker and an error at the same time. -/
theorem spec_C2_amended (events : List DecodeEvent) :
    ((ollamaStreamLoop events).dropLast.all (fun c => !(isTerminal c)) = true) ∧
    (((ollamaStreamLoop events).any isTerminal = true) ↔ (reachesTerminal events = true)) ∧
    ((ollamaStreamLoop events).all (fun c => !(c.done && c.error.isSome)) = true) :=
  ⟨streamLoop_dropLast_nonterminal events, streamLoop_any_terminal_iff events,
   streamLoop_not_both events⟩

lemma streamLoop_content_from_units (events : List DecodeEvent) :
    ∀ c ∈ ollamaStreamLoop events, isTerminal c = false →
      ∃ r, DecodeEvent.unit r ∈ events ∧ r.done = false ∧ c.content = r.messageContent := by
  induction events with
  | nil => intro c hc; simp [ollamaStreamLoop] at hc
  | cons e rest ih =>
    cases e with
    | decodeErr m =>
      intro c hc hterm
      simp [ollamaStreamLoop] at hc
      subst hc
      simp [isTerminal] at hterm
    | unit r =>
      cases hr : r.done with
      | true =>
        intro c hc hterm
        simp [ollamaStreamLoop, hr] at hc
        subst hc
        simp [isTerminal] at hterm
      | false =>
        intro c hc hterm
        simp [ollamaStreamLoop, hr] at hc
        rcases hc with hc | hc
        · subst hc
          exact ⟨r, by simp, hr, rfl⟩
        · rcases ih c hc hterm with ⟨r2, hmem, hd, hcontent⟩
          exact ⟨r2, by simp [hmem], hd, hcontent⟩

lemma wrapper_chunks_terminal (chatResult : Except String LLMResponse) :
    ∀ c ∈ wrapperStreamChat chatResult, isTerminal c = true := by
  cases chatResult with
  | error e =>
    intro c hc
    simp [wrapperStreamChat] at hc
    subst hc
    simp [isTerminal]
  | ok resp =>
    intro c hc
    simp [wrapperStreamChat] at hc
    subst hc
    simp [isTerminal]

/-- C7 (counterexample): a non-done upstream unit with empty content makes
the Ollama streaming adapter emit a non-terminal content fragment whose
content is the empty string, refuting the claim that an adapter never
emits an empty content fragment. -/
theorem spec_C7_counterexample :
    ollamaStreamLoop [DecodeEvent.unit { messageContent := "", done := false },
        DecodeEvent.unit { messageContent := "", done := true }] =
      [{ content := "", done := false, error := none },
       { content := "", done := true, error := none }] ∧
    isTerminal { content := "", done := false, error := none } = false := ⟨rfl, rfl⟩

/-- C7 (amended): every non-terminal fragment emitted by the Ollama
streaming adapter carries the content of a non-done upstream unit
verbatim, which may be the empty string (empty deltas are not filtered
out); the simulate-streaming wrapper emits only terminal fragments. -/
theorem spec_C7_amended :
    (∀ events : List DecodeEvent, ∀ c ∈ ollamaStreamLoop events, isTerminal c = false →
        ∃ r, DecodeEvent.unit r ∈ events ∧ r.done = false ∧ c.content = r.messageContent) ∧
    (∀ chatResult : Except String LLMResponse, ∀ c ∈ wrapperStreamChat chatResult,
        isTerminal c = true) :=
  ⟨streamLoop_content_from_units, wrapper_chunks_terminal⟩

/-- C7 witness: a concrete non-terminal fragment produced from a concrete
non-done unit, obtained from the amended theorem. -/
theorem spec_C7_amended_witness :
    ({ content := "hi", done := false, error := none } : StreamChunk) ∈
        ollamaStreamLoop [DecodeEvent.unit { messageContent := "hi", done := false }] ∧
    isTerminal { content := "hi", done := false, error := none } = false ∧
    ∃ r, DecodeEvent.unit r ∈ [DecodeEvent.unit { messageContent := "hi", done := false }] ∧
        r.done = false ∧
        ({ content := "hi", done := false, error := none } : StreamChunk).content =
          r.messageContent :=
  ⟨by decide, by decide,
   spec_C7_amended.1 [DecodeEvent.unit { messageContent := "hi", done := false }]
     { content := "hi", done := false, error := none } (by decide) (by decide)⟩

lemma streamLoop_decodeErr_shape (pre : List OllamaStreamUnit) (m : String)
    (rest : List DecodeEvent) (hpre : ∀ r ∈ pre, r.done = false) :
    ollamaStreamLoop (pre.map DecodeEvent.unit ++ DecodeEvent.decodeErr m :: rest) =
      pre.map (fun r => { content := r.messageContent, done := false, error := none }) ++
        [{ content := "", done := false, error := some ("decode error: " ++ m) }] := by
  induction pre with
  | nil => simp [ollamaStreamLoop]
  | cons r pre2 ih =>
    have hr : r.done = false := hpre r (by simp)
    have hrest : ∀ x ∈ pre2, x.done = false := fun x hx => hpre x (by simp [hx])
    simp [ollamaStreamLoop, hr, ih hrest]

/-- C8: failure modes of the Ollama adapters.  When httpClient.Do fails
(upstream unreachable) the streaming call returns a connectivity error
and no stream, so no content fragment is ever emitted; when the upstream
answers a non-success status, both the streaming call and the
non-streaming Chat return an error carrying the upstream status code and
the response body; when a payload fails to decode mid-stream, the stream
forwards the content decoded so far and ends immediately with one decode
error fragment. -/
theorem spec_C8_failure_modes :
    (∀ (configModel : String) (messages : List Message) (m : String),
        messages.length ≠ 0 →
        (ollamaStreamChat configModel messages (StreamHTTPResult.doErr m)).1 =
          Except.error ("failed to send request: " ++ m)) ∧
    (∀ (configModel : String) (messages : List Message) (status : Nat)
        (rawBody : String) (events : List DecodeEvent),
        messages.length ≠ 0 → status ≠ 200 →
        (ollamaStreamChat configModel messages (StreamHTTPResult.resp status rawBody events)).1 =
          Except.error ("ollama returned status " ++ toString status ++ ": " ++ rawBody)) ∧
    (∀ (configModel : String) (messages : List Message) (model : String) (status : Nat)
        (rawBody : String) (decoded : BodyDecodeResult),
        messages.length ≠ 0 → status ≠ 200 →
        (ollamaProviderChat configModel messages model
            (ChatHTTPResult.resp status rawBody decoded)).1 =
          Except.error ("ollama returned status " ++ toString status ++ ": " ++ rawBody)) ∧
    (∀ (pre : List OllamaStreamUnit) (m : String) (rest : List DecodeEvent),
        (∀ r ∈ pre, r.done = false) →
        ollamaStreamLoop (pre.map DecodeEvent.unit ++ DecodeEvent.decodeErr m :: rest) =
          pre.map (fun r => { content := r.messageContent, done := false, error := none }) ++
            [{ content := "", done := false, error := some ("decode error: " ++ m) }]) := by
  refine ⟨?_, ?_, ?_, ?_⟩
  · intro configModel messages m h
    simp [ollamaStreamChat, h]
  · intro configModel messages status rawBody events h hs
    simp [ollamaStreamChat, h, hs]
  · intro configModel messages model status rawBody decoded h hs
    simp [ollamaProviderChat, h, hs]
  · intro pre m rest hpre
    exact streamLoop_decodeErr_shape pre m rest hpre

/-- C8 witness: the three failure modes at concrete inputs, obtained from
the failure-mode theorem. -/
theorem spec_C8_failure_modes_witness :
    (([{ role := "user", content := "hi" }] : List Message).length ≠ 0 ∧ (500 : Nat) ≠ 200) ∧
    (ollamaStreamChat "llama3.2" [{ role := "user", content := "hi" }]
        (StreamHTTPResult.doErr "dial refused")).1 =
      Except.error ("failed to send request: " ++ "dial refused") ∧
    (ollamaStreamChat "llama3.2" [{ role := "user", content := "hi" }]
        (StreamHTTPResult.resp 500 "boom" [])).1 =
      Except.error ("ollama returned status " ++ toString (500 : Nat) ++ ": " ++ "boom") ∧
    (ollamaProviderChat "llama3.2" [{ role := "user", content := "hi" }] "m"
        (ChatHTTPResult.resp 500 "boom" (BodyDecodeResult.err "bad"))).1 =
      Except.error ("ollama returned status " ++ toString (500 : Nat) ++ ": " ++ "boom") ∧
    ollamaStreamLoop
        (([{ messageContent := "par", done := false }] : List OllamaStreamUnit).map
            DecodeEvent.unit ++ DecodeEvent.decodeErr "bad" :: []) =
      ([{ messageContent := "par", done := false }] : List OllamaStreamUnit).map
          (fun r => { content := r.messageContent, done := false, error := none }) ++
        [{ content := "", done := false, error := some ("decode error: " ++ "bad") }] :=
  ⟨⟨by decide, by decide⟩,
   spec_C8_failure_modes.1 "llama3.2" [{ role := "user", content := "hi" }] "dial refused"
     (by decide),
   spec_C8_failure_modes.2.1 "llama3.2" [{ role := "user", content := "hi" }] 500 "boom" []
     (by decide) (by decide),
   spec_C8_failure_modes.2.2.1 "llama3.2" [{ role := "user", content := "hi" }] "m" 500 "boom"
     (BodyDecodeResult.err "bad") (by decide) (by decide),
   spec_C8_failure_modes.2.2.2 [{ messageContent := "par", done := false }] "bad" []
     (by decide)⟩

/-- C10: both Chat implementations and StreamChat reject an empty message
list with the error no messages provided while issuing no upstream HTTP
request, and for every non-empty message list the guard is passed and
exactly one upstream request is issued. -/
theorem spec_C10_empty_guard :
    (∀ (configModel model : String) (http : ChatHTTPResult),
        (ollamaProviderChat configModel [] model http).1 =
            Except.error "no messages provided" ∧
        (ollamaProviderChat configModel [] model http).2 = []) ∧
    (∀ (configModel : String) (http : ChatHTTPResult),
        (ollamaChat configModel [] http).1 = Except.error "no messages provided" ∧
        (ollamaChat configModel [] http).2 = []) ∧
    (∀ (configModel : String) (http : StreamHTTPResult),
        (ollamaStreamChat configModel [] http).1 = Except.error "no messages provided" ∧
        (ollamaStreamChat configModel [] http).2 = []) ∧
    (∀ (configModel : String) (a : Message) (tl : List Message) (model : String)
        (http : ChatHTTPResult),
        (ollamaProviderChat configModel (a :: tl) model http).2.length = 1) ∧
    (∀ (configModel : String) (a : Message) (tl : List Message) (http : ChatHTTPResult),
        (ollamaChat configModel (a :: tl) http).2.length = 1) ∧
    (∀ (configModel : String) (a : Message) (tl : List Message) (http : StreamHTTPResult),
        (ollamaStreamChat configModel (a :: tl) http).2.length = 1) := by
  refine ⟨fun _ _ _ => ⟨rfl, rfl⟩, fun _ _ => ⟨rfl, rfl⟩, fun _ _ => ⟨rfl, rfl⟩, ?_, ?_, ?_⟩
  · intro configModel a tl model http
    cases http with
    | doErr m => rfl
    | resp s b d =>
      by_cases hs : s = 200
      · cases d <;> simp [ollamaProviderChat, hs]
      · simp [ollamaProviderChat, hs]
  · intro configModel a tl http
    cases http with
    | doErr m => rfl
    | resp s b d =>
      by_cases hs : s = 200
      · cases d <;> simp [ollamaChat, hs]
      · simp [ollamaChat, hs]
  · intro configModel a tl http
    cases http with
    | doErr m => rfl
    | resp s b events =>
      by_cases hs : s = 200
      · simp [ollamaStreamChat, hs]
      · simp [ollamaStreamChat, hs]

/-- C6: when the startup reachability probe of the Ollama provider fails
(the model listing errors, leaving a nil slice, or returns an empty
list), the provider is not put into the registry: the available-provider
list is empty, so it never contains ollama, and getProvider on ollama
returns none. -/
theorem spec_C6_probe_failure (probeModels : Option (List String))
    (h : (probeModels.getD []).isEmpty = true) :
    initProviders probeModels = [] ∧
    getAvailableProviders (initProviders probeModels) = [] ∧
    getProvider (initProviders probeModels) "ollama" = none := by
  have hinit : initProviders probeModels = [] := by
    cases probeModels with
    | none => rfl
    | some l =>
      cases l with
      | nil => rfl
      | cons a tl => simp [Option.getD, List.isEmpty] at h
  exact ⟨hinit, by simp [getAvailableProviders, hinit], by simp [getProvider, hinit]⟩

/-- C6 witness: a failing probe (listing error, nil models) leaves the
registry empty, obtained from the probe-failure theorem. -/
theorem spec_C6_probe_failure_witness :
    ((none : Option (List String)).getD []).isEmpty = true ∧
    initProviders none = [] ∧
    getAvailableProviders (initProviders none) = [] ∧
    getProvider (initProviders none) "ollama" = none :=
  ⟨by decide, spec_C6_probe_failure none (by decide)⟩

lemma chatLoop_store_of_done (chunks : List StreamChunk) :
    ∀ (store : SessionStore) (key full acc : String),
      accumUntilDone chunks full = some acc →
      (chatLoop store key chunks full).1 =
        if acc = "" then store else (store.addMessage key "assistant" acc).save key := by
  induction chunks with
  | nil => intro store key full acc h; simp [accumUntilDone] at h
  | cons c rest ih =>
    intro store key full acc h
    cases hce : c.error with
    | some m => simp [accumUntilDone, hce] at h
    | none =>
      cases hcd : c.done with
      | true =>
        simp [accumUntilDone, hce, hcd] at h
        subst h
        simp only [chatLoop, hce, hcd]
        by_cases hx : full ++ c.content = "" <;> simp [hx]
      | false =>
        simp only [accumUntilDone, hce, hcd] at h
        simp only [chatLoop, hce, hcd, if_false, Bool.false_eq_true]
        exact ih store key (full ++ c.content) acc (by simpa using h)

lemma loops_agree (chunks : List StreamChunk) :
    ∀ (store : SessionStore) (key full : String),
      (chatLoop store key chunks full).1 = (wsLoop store key chunks full).1 ∧
      (chatLoop store key chunks full).2.map httpEventToFragment =
        (wsLoop store key chunks full).2.map wsEventToFragment := by
  induction chunks with
  | nil => intro store key full; exact ⟨rfl, rfl⟩
  | cons c rest ih =>
    intro store key full
    cases hce : c.error with
    | some m => simp [chatLoop, wsLoop, hce, httpEventToFragment, wsEventToFragment]
    | none =>
      cases hcd : c.done with
      | true => simp [chatLoop, wsLoop, hce, hcd, httpEventToFragment, wsEventToFragment]
      | false =>
        have hrec := ih store key (full ++ c.content)
        simp [chatLoop, wsLoop, hce, hcd, httpEventToFragment, wsEventToFragment,
          hrec.1, hrec.2]

lemma dispatch_agree (res : Except String (List StreamChunk)) (store : SessionStore)
    (key : String) :
    (chatDispatch store key res).1 = (wsDispatch store key res).1 ∧
    (chatDispatch store key res).2.map httpEventToFragment =
      (wsDispatch store key res).2.map wsEventToFragment := by
  cases res with
  | error e => simp [chatDispatch, wsDispatch, httpEventToFragment, wsEventToFragment]
  | ok chunks =>
    have hrec := loops_agree chunks store key ""
    simpa [chatDispatch, wsDispatch] using hrec

lemma chatLoop_error_break (pre : List StreamChunk) :
    ∀ (store : SessionStore) (key : String) (c : StreamChunk) (m : String)
      (rest : List StreamChunk) (full : String),
      (∀ x ∈ pre, x.error = none ∧ x.done = false) → c.error = some m →
      chatLoop store key (pre ++ c :: rest) full =
        (store, pre.map (fun x => HTTPEvent.frame x.content x.done) ++
          [HTTPEvent.errFrame m]) := by
  induction pre with
  | nil =>
    intro store key c m rest full _ hc
    simp [chatLoop, hc]
  | cons x pre2 ih =>
    intro store key c m rest full hpre hc
    have hx := hpre x (by simp)
    have hpre2 : ∀ y ∈ pre2, y.error = none ∧ y.done = false :=
      fun y hy => hpre y (by simp [hy])
    simp [chatLoop, hx.1, hx.2, ih store key c m rest (full ++ x.content) hpre2 hc]

/-- A registry in which only the Ollama provider is registered. -/
def names0 : List String := ["ollama"]

/-- The default-model map of the concrete registry. -/
def defaultModel0 : String → String := fun _ => "llama3.2"

/-- A provider behaviour that streams nothing, for turns that never reach
the provider. -/
def beh0 : String → List Message → String → Except String (List StreamChunk) :=
  fun _ _ _ => Except.ok []

/-- A turn request naming the unregistered provider gpt-nope. -/
def reqBad : ChatRequest :=
  { messages := [{ role := "user", content := "hi" }], provider := "gpt-nope",
    model := "m", systemPrompt := "", sessionKey := "s1" }

/-- C3 (counterexample): on a fresh store, a turn naming the unregistered
provider gpt-nope returns the HTTP 400 error Provider gpt-nope not
available before any session write, so the incoming user message is not
appended, refuting the claim that the user message is still durable;
moreover, the emitted message capitalizes Provider, not the lowercase
form the claim states. -/
theorem spec_C3_counterexample :
    (handleChat names0 defaultModel0 beh0 "g" emptyStore reqBad).1.getHistory "s1" = [] ∧
    (handleChat names0 defaultModel0 beh0 "g" emptyStore reqBad).2 =
      [HTTPEvent.httpError 400 (providerNotAvailableMsg "gpt-nope")] ∧
    providerNotAvailableMsg "gpt-nope" ≠
      "provider " ++ squote ++ "gpt-nope" ++ squote ++ " not available" := by
  refine ⟨by decide, by decide, by decide⟩

/-- C3 (amended): for every turn whose resolved provider name is not
registered, both transport bindings report the error Provider name not
available (an HTTP 400 response on the event-stream binding, an error
JSON message on the socket binding) and return with the session store
completely unchanged: neither the incoming user message nor any
assistant message is appended, and nothing is persisted. -/
theorem spec_C3_amended (names : List String) (defaultModel : String → String)
    (beh : String → List Message → String → Except String (List StreamChunk))
    (genKey : String) (store : SessionStore) (req : ChatRequest)
    (h : getProvider names (resolveProviderName names req.provider) = none) :
    handleChat names defaultModel beh genKey store req =
      (store, [HTTPEvent.httpError 400
        (providerNotAvailableMsg (resolveProviderName names req.provider))]) ∧
    handleWebSocketTurn names defaultModel beh genKey store req =
      (store, [WSEvent.errJson
        (providerNotAvailableMsg (resolveProviderName names req.provider))]) := by
  constructor
  · simp [handleChat, h]
  · simp [handleWebSocketTurn, h]

/-- C3 witness: the amended theorem applied at the concrete unregistered
provider gpt-nope on a fresh store. -/
theorem spec_C3_amended_witness :
    getProvider names0 (resolveProviderName names0 reqBad.provider) = none ∧
    (handleChat names0 defaultModel0 beh0 "g" emptyStore reqBad =
      (emptyStore, [HTTPEvent.httpError 400
        (providerNotAvailableMsg (resolveProviderName names0 reqBad.provider))]) ∧
     handleWebSocketTurn names0 defaultModel0 beh0 "g" emptyStore reqBad =
      (emptyStore, [WSEvent.errJson
        (providerNotAvailableMsg (resolveProviderName names0 reqBad.provider))])) :=
  ⟨by decide, spec_C3_amended names0 defaultModel0 beh0 "g" emptyStore reqBad (by decide)⟩

/-- A turn request on session s1 with the single user message hi, naming
the registered Ollama provider. -/
def req0 : ChatRequest :=
  { messages := [{ role := "user", content := "hi" }], provider := "ollama",
    model := "m", systemPrompt := "", sessionKey := "s1" }

/-- The behaviour of the simulate-streaming wrapper over a provider whose
one complete response is hello. -/
def behHello : String → List Message → String → Except String (List StreamChunk) :=
  fun _ _ _ =>
    Except.ok (wrapperStreamChat (Except.ok { content := "hello", finishReason := "stop" }))

/-- C4: when the chunk loop reaches a done chunk, the resulting store is
the input store with the accumulated assistant text appended as one
assistant message followed by a Save exactly when that text is non-empty,
and the input store unchanged when it is empty; concretely, a turn with
user message hi answered hello on a fresh session leaves both the
in-memory and the durable history of session s1 equal to user hi followed
by assistant hello. -/
theorem spec_C4_done_persist :
    (∀ (chunks : List StreamChunk) (store : SessionStore) (key full acc : String),
        accumUntilDone chunks full = some acc →
        (chatLoop store key chunks full).1 =
          if acc = "" then store else (store.addMessage key "assistant" acc).save key) ∧
    ((handleChat names0 defaultModel0 behHello "g" emptyStore req0).1.getHistory "s1" =
        [{ role := "user", content := "hi" }, { role := "assistant", content := "hello" }] ∧
     (handleChat names0 defaultModel0 behHello "g" emptyStore req0).1.disk "s1" =
        [{ role := "user", content := "hi" }, { role := "assistant", content := "hello" }]) := by
  constructor
  · intro chunks store key full acc h
    exact chatLoop_store_of_done chunks store key full acc h
  · exact ⟨by decide, by decide⟩

/-- C4 witness: the general part of the done-persistence theorem applied
to the concrete single done chunk carrying hello. -/
theorem spec_C4_done_persist_witness :
    accumUntilDone [{ content := "hello", done := true, error := none }] "" = some "hello" ∧
    (chatLoop emptyStore "s1" [{ content := "hello", done := true, error := none }] "").1 =
      (if "hello" = "" then emptyStore
       else (emptyStore.addMessage "s1" "assistant" "hello").save "s1") :=
  ⟨by decide,
   spec_C4_done_persist.1 [{ content := "hello", done := true, error := none }]
     emptyStore "s1" "" "hello" (by decide)⟩

/-- C5: when the stream ends with an error chunk after a run of
non-terminal content chunks, the chunk loop forwards every partial
content frame in order followed by exactly one error frame (nothing is
retracted), and returns the session store completely unchanged: no
assistant message is appended and nothing is persisted. -/
theorem spec_C5_error_no_persist (pre : List StreamChunk) (store : SessionStore)
    (key : String) (c : StreamChunk) (m : String) (rest : List StreamChunk) (full : String)
    (hpre : ∀ x ∈ pre, x.error = none ∧ x.done = false) (hc : c.error = some m) :
    chatLoop store key (pre ++ c :: rest) full =
      (store, pre.map (fun x => HTTPEvent.frame x.content x.done) ++
        [HTTPEvent.errFrame m]) :=
  chatLoop_error_break pre store key c m rest full hpre hc

/-- C5 witness: a stream emitting the partial content par and then a
connection error leaves the fresh store untouched while the par frame
stays forwarded, obtained from the error-no-persist theorem. -/
theorem spec_C5_error_no_persist_witness :
    (∀ x ∈ ([{ content := "par", done := false, error := none }] : List StreamChunk),
        x.error = none ∧ x.done = false) ∧
    chatLoop emptyStore "s1"
        ([{ content := "par", done := false, error := none }] ++
          [{ content := "", done := false, error := some "connection reset" }]) "" =
      (emptyStore,
        ([{ content := "par", done := false, error := none }] : List StreamChunk).map
            (fun x => HTTPEvent.frame x.content x.done) ++
          [HTTPEvent.errFrame "connection reset"]) :=
  ⟨by decide,
   spec_C5_error_no_persist [{ content := "par", done := false, error := none }]
     emptyStore "s1" { content := "", done := false, error := some "connection reset" }
     "connection reset" [] "" (by decide) (by decide)⟩

/-- C9: for every registry, provider behaviour, generated key, store and
turn request, the event-stream HTTP binding and the WebSocket binding
leave the session store in the same state and forward the same fragment
sequence in the same order once their wire framing is stripped, including
in the provider-not-available case (an HTTP 400 error response versus an
error JSON message, both carrying the same error message). -/
theorem spec_C9_transport_equivalence (names : List String)
    (defaultModel : String → String)
    (beh : String → List Message → String → Except String (List StreamChunk))
    (genKey : String) (store : SessionStore) (req : ChatRequest) :
    (handleChat names defaultModel beh genKey store req).1 =
      (handleWebSocketTurn names defaultModel beh genKey store req).1 ∧
    (handleChat names defaultModel beh genKey store req).2.map httpEventToFragment =
      (handleWebSocketTurn names defaultModel beh genKey store req).2.map
        wsEventToFragment := by
  cases hgp : getProvider names (resolveProviderName names req.provider) with
  | none =>
    simp [handleChat, handleWebSocketTurn, hgp, httpEventToFragment, wsEventToFragment]
  | some pn =>
    simp only [handleChat, handleWebSocketTurn, hgp]
    exact ⟨(dispatch_agree _ _ _).1, (dispatch_agree _ _ _).2⟩
